import Mathlib

/-!
Verification of the xivpf_monitor polling/monitoring engine.

Shallow embedding of the Python sources (`monitor.py`, `api_client.py`,
`models.py`, `job_mappings.py`) into Lean:

* timestamps and durations are modelled as `Int` seconds (Python `datetime`
  arithmetic via `total_seconds()`), remaining time (`time_left`) as `Int`;
* the remote API is modelled as oracles: a per-id detail oracle
  `Nat → DetailResult` (`get_listing_detail`) and a per-page data oracle
  for pagination;
* Python exceptions become explicit constructors (`ValueError` from a 404 is
  `DetailResult.notFound`; any other exception, e.g. an aiohttp transport
  error, is `DetailResult.transportErr` and propagates as `Except.error`);
* Python sets are modelled as lists with membership semantics;
* notifier calls are recorded as `Event` values instead of formatted strings.
-/

namespace XivpfMonitor

/-- One slot of a listing's detail payload (`models.SlotInfo`); the `role`
field is never consulted by the filter logic and is omitted. -/
structure SlotInfo where
  filled : Bool
  job : String
deriving DecidableEq

/-- A party-finder listing (`models.Listing`).  Fields that the monitor logic
never reads (purely descriptive strings such as `created_world`, `category`,
`min_item_level`, …) are omitted; `updated_at` is seconds, `time_left` is a
duration.  `duty_type`, `beginners_welcome` and `slots` are detail-endpoint
fields (`None` on the list endpoint), with `duty_type` modelled as a plain
`String` since only its total order is used. -/
structure Listing where
  id : Nat
  name : String
  description : String
  duty_type : String
  slots_filled : Nat
  slots_available : Nat
  time_left : Int
  updated_at : Int
  beginners_welcome : Option Bool
  slots : Option (List SlotInfo)
deriving DecidableEq

/-- A monitored target (`models.MonitorTarget`). -/
structure MonitorTarget where
  listing_id : Nat
  last_update : Int
  time_without_update : Int := 0
deriving DecidableEq

/-- A filter condition (`models.FilterCondition`): query-level fields
(`category` … `duty`) and detail-level fields (`exclude_jobs` …
`content_keywords`). -/
structure FilterCondition where
  category : Option String := none
  world : Option String := none
  datacenter : Option String := none
  search : Option String := none
  jobs : Option (List Nat) := none
  duty : Option (List Nat) := none
  exclude_jobs : Option (List Nat) := none
  min_slots_available : Option Nat := none
  max_slots_filled : Option Nat := none
  beginners_welcome : Option Bool := none
  content_keywords : Option String := none
deriving DecidableEq

/-- Outcome of `get_listing_detail(id)`: the listing, a 404 (raised as
`ValueError` in the Python code), or any other exception (transport error,
malformed response), which propagates to the caller. -/
inductive DetailResult where
  | found (l : Listing)
  | notFound
  | transportErr
deriving DecidableEq

/-- Observable notifier calls, tagged by which call site produced them.
`expiredStale` is `notify_expired(listing, "超过 … 分钟没有更新")` from
`check_monitor_targets`; `expiredGone` is
`notify_expired(listing, "招募已从列表中消失")` from `check_expired_by_order`;
`endedDeleted` is the `show_status("招募 … 已结束或删除")` emitted when a
target's detail fetch returns 404. -/
inductive Event where
  | updated (id : Nat)
  | expiredStale (id : Nat)
  | expiredGone (id : Nat)
  | endedDeleted (id : Nat)
  | showTable (ids : List Nat)
deriving DecidableEq

/-- A convenient listing constructor for concrete test inputs: only the
fields that matter for the ordering/expiration logic vary. -/
def mkL (id : Nat) (tl : Int) (up : Int) : Listing :=
  { id := id, name := "", description := "", duty_type := "",
    slots_filled := 0, slots_available := 0, time_left := tl,
    updated_at := up, beginners_welcome := none, slots := none }

/-! ## Expiration detector (`monitor.py`, `check_expired_by_order`)

The Python loop

```
last_new_index = len(listings) - 1
for i in range(1, len(listings)):
    if listings[i].time_left < listings[i-1].time_left:
        last_new_index = i - 1
        break
```

computes the last index of the longest leading run of non-decreasing
`time_left` values of `listings`. -/

/-- Index accumulator for `lastNewIndex`: walk consecutive pairs, stopping at
the first descent. -/
def lastNewIndexFrom : List Listing → Nat → Nat
  | x :: y :: rest, i => if y.time_left < x.time_left then i else lastNewIndexFrom (y :: rest) (i + 1)
  | _, i => i

/-- `last_new_index` of `check_expired_by_order`: last index of the longest
leading non-decreasing `time_left` run (`len - 1` if there is no descent). -/
def lastNewIndex (listings : List Listing) : Nat :=
  lastNewIndexFrom listings 0

/-- `XIVPFMonitor.check_expired_by_order(listings)`, with the instance state
passed explicitly: takes the target registry, the stored snapshot
(`self.last_listings`) and the current merged sequence; returns the emitted
notifications, the new registry, and the new snapshot.  Mirrors the source:
early return (snapshot untouched) when the current sequence has fewer than 2
listings or there are no targets; otherwise ids drawn from the previous
snapshot truncated at `last_new_index + 1` (the index computed on the
*current* sequence) that are absent from the whole current sequence and are
monitored get an expired notification and are removed; the snapshot is then
replaced by the current sequence. -/
def check_expired_by_order (targets : List MonitorTarget) (lastL cur : List Listing) :
    List Event × List MonitorTarget × List Listing :=
  if cur.length < 2 || targets.isEmpty then ([], targets, lastL)
  else if lastL.isEmpty then ([], targets, cur)
  else
    let previousIds := (lastL.take (lastNewIndex cur + 1)).map (·.id)
    let currentIds := cur.map (·.id)
    let expiredTargets := previousIds.filter
      (fun i => !currentIds.contains i && targets.any (fun t => t.listing_id == i))
    let evs := (lastL.filter (fun l => expiredTargets.contains l.id)).map
      (fun l => Event.expiredGone l.id)
    let newTargets := targets.filter (fun t => !expiredTargets.contains t.listing_id)
    (evs, newTargets, cur)

/-! ## Target registry lifecycle (`monitor.py`, `check_monitor_targets`) -/

/-- The body of `check_monitor_targets` for one registry entry, with
`datetime.now()` and `self.expire_threshold` passed explicitly.  Returns the
surviving entries contributed by this target (empty when removed) and the
notifier calls.  A `transportErr` detail fetch corresponds to the generic
`except Exception` branch: the error is logged and the entry is left
untouched. -/
def check_target (api : Nat → DetailResult) (now threshold : Int) (t : MonitorTarget) :
    List MonitorTarget × List Event :=
  match api t.listing_id with
  | .notFound => ([], [Event.endedDeleted t.listing_id])
  | .transportErr => ([t], [])
  | .found l =>
    if t.last_update < l.updated_at then
      ([{ t with last_update := l.updated_at, time_without_update := 0 }], [Event.updated l.id])
    else
      let stale := now - t.last_update
      if threshold < stale then ([], [Event.expiredStale l.id])
      else ([{ t with time_without_update := stale }], [])

/-- `XIVPFMonitor.check_monitor_targets`, iterating the registry (a dict in
insertion order, modelled as a list with distinct `listing_id`s). -/
def check_monitor_targets (api : Nat → DetailResult) (now threshold : Int) :
    List MonitorTarget → List MonitorTarget × List Event
  | [] => ([], [])
  | t :: rest =>
    let r := check_target api now threshold t
    let rec1 := check_monitor_targets api now threshold rest
    (r.1 ++ rec1.1, r.2 ++ rec1.2)

/-! ## One iteration of the poll loop (`monitor.py`, `continuous_search`)

The long-lived per-cycle state and the branch of `continuous_search` that
runs after the merged result list `all_listings` has been computed: either
the monitored-target branch (display registry, expiration check, lifecycle
check) or the display-on-new branch. -/

/-- The poll loop's long-lived state (`self.monitor_targets`,
`self.last_listings`, `self.last_displayed_ids`). -/
structure MonitorState where
  targets : List MonitorTarget
  lastListings : List Listing
  lastDisplayedIds : List Nat
deriving DecidableEq

/-- The no-targets branch of `continuous_search`: show the table only when
the current ids contain one not yet displayed, and then remember the current
id set.  Returns (table shown?, new `last_displayed_ids`). -/
def display_step (lastDisplayed : List Nat) (allListings : List Listing) : Bool × List Nat :=
  if allListings.isEmpty then (false, lastDisplayed)
  else if ((allListings.map (fun l => l.id)).filter (fun i => !lastDisplayed.contains i)).isEmpty
    then (false, lastDisplayed)
  else (true, allListings.map (fun l => l.id))

/-- "Some current result id has not been displayed yet" — the condition
under which the no-targets branch shows the table. -/
def anyNewId (lastDisplayed : List Nat) (allListings : List Listing) : Prop :=
  ∃ i ∈ allListings.map (fun l => l.id), i ∉ lastDisplayed

instance (lastDisplayed : List Nat) (allListings : List Listing) :
    Decidable (anyNewId lastDisplayed allListings) :=
  List.decidableBEx _ _

/-- The state-mutating tail of one `continuous_search` iteration, given the
merged, sorted `allListings` of the cycle.  With monitored targets:
`show_monitor_targets` (display only, no state effect, omitted), then
`check_expired_by_order` guarded by `enable_expire_check and all_listings`,
then `check_monitor_targets`.  Without targets: `display_step`. -/
def runCycle (api : Nat → DetailResult) (now threshold : Int) (enableExpire : Bool)
    (allListings : List Listing) (st : MonitorState) : MonitorState × List Event :=
  if st.targets.isEmpty then
    let d := display_step st.lastDisplayedIds allListings
    ({ st with lastDisplayedIds := d.2 },
      if d.1 then [Event.showTable (allListings.map (·.id))] else [])
  else
    let e :=
      if enableExpire && !allListings.isEmpty then
        check_expired_by_order st.targets st.lastListings allListings
      else ([], st.targets, st.lastListings)
    let m := check_monitor_targets api now threshold e.2.1
    ({ st with targets := m.1, lastListings := e.2.2 }, e.1 ++ m.2)

/-! ## Search and notification dedup (`monitor.py`, `search_listings`)

`search_listings` is modelled with its two API interactions as oracles: the
result of `get_all_listings` (which can raise) and the per-listing
`check_advanced_filters` verdict (which can also raise, e.g. a transport
error during the detail fetch).  Any raised exception hits the
`except Exception` and the call returns `[]` leaving the notified set
untouched. -/

/-- The advanced-filter loop of `search_listings`: keep listings whose
verdict is `true`, aborting the whole computation on a raised exception. -/
def applyAdvanced (adv : Listing → Except Unit Bool) : List Listing → Except Unit (List Listing)
  | [] => Except.ok []
  | l :: rest =>
    match adv l with
    | .error e => .error e
    | .ok b =>
      match applyAdvanced adv rest with
      | .error e => .error e
      | .ok r => .ok (if b then l :: r else r)

/-- `XIVPFMonitor.search_listings`, with `self.notified_listings` passed
explicitly.  Returns (the returned `filtered_listings`, the `new_listings`
that get notified, the new notified set).  On any exception: `([], [],
unchanged)`. -/
def search_listings (fetched : Except Unit (List Listing)) (adv : Listing → Except Unit Bool)
    (notified : List Nat) (notify : Bool) : List Listing × List Listing × List Nat :=
  match fetched with
  | .error _ => ([], [], notified)
  | .ok listings =>
    match applyAdvanced adv listings with
    | .error _ => ([], [], notified)
    | .ok filtered =>
      if notify && !(filtered.filter (fun l => !notified.contains l.id)).isEmpty then
        (filtered, filtered.filter (fun l => !notified.contains l.id),
          notified ++ (filtered.filter (fun l => !notified.contains l.id)).map (fun l => l.id))
      else (filtered, filtered.filter (fun l => !notified.contains l.id), notified)

/-- One search unit of a cycle: the fetched result and the advanced-filter
verdict oracle for that condition. -/
def SearchInput : Type :=
  Except Unit (List Listing) × (Listing → Except Unit Bool)

/-- A sequence of `search_listings` calls (the per-condition loop of
successive cycles), threading the notified set; returns the final notified
set and each call's `new_listings` subset. -/
def runSearches : List SearchInput → List Nat → List Nat × List (List Listing)
  | [], notified => (notified, [])
  | u :: rest, notified =>
    let r := search_listings u.1 u.2 notified true
    let rec1 := runSearches rest r.2.2
    (rec1.1, r.2.1 :: rec1.2)

/-- The per-condition loop of a single `continuous_search` iteration:
`all_listings.extend(listings)` over the conditions, threading the notified
set. -/
def searchAll : List SearchInput → List Nat → List Listing × List Nat
  | [], notified => ([], notified)
  | u :: rest, notified =>
    let r := search_listings u.1 u.2 notified true
    let rec1 := searchAll rest r.2.2
    (r.1 ++ rec1.1, rec1.2)

/-- `XIVPFMonitor.clear_notified_listings`: `self.notified_listings.clear()`. -/
def clear_notified_listings (_notified : List Nat) : List Nat :=
  []

/-! ## Pagination (`api_client.py`, `get_all_listings` / `get_listings`)

The remote source is modelled by a per-page data oracle and one reported
`total_pages` value (the claims speak of "a source reporting
`total_pages=n`").  `get_all_listings` starts at page 1 and repeats until
`page >= total_pages` or, when `max_pages` is truthy, `page >= max_pages`;
the `while True` loop is re-indexed structurally by the remaining page count
`total_pages - page`, which the loop's break conditions make a faithful
translation. -/

/-- `get_listings`'s client-side clamp of the requested page size
(`min(per_page, 100)`, api_client.py line 37). -/
def clampPerPage (requested : Nat) : Nat :=
  min requested 100

/-- The Python `if max_pages and page >= max_pages` break condition:
a `None` or `0` cap never triggers. -/
def capReached (maxPages : Option Nat) (page : Nat) : Bool :=
  match maxPages with
  | none => false
  | some m => m != 0 && decide (m ≤ page)

/-- The fetch loop of `get_all_listings` from page `page` with
`rem = total_pages - page` pages still reported ahead.  Returns the
concatenated data and the trace of (page, per_page) requests, each at the
clamped maximum page size. -/
def getAllAux (fetchData : Nat → List Listing) (maxPages : Option Nat) :
    (page rem : Nat) → List Listing × List (Nat × Nat)
  | page, 0 => (fetchData page, [(page, clampPerPage 100)])
  | page, rem + 1 =>
    if capReached maxPages page then (fetchData page, [(page, clampPerPage 100)])
    else
      let rest := getAllAux fetchData maxPages (page + 1) rem
      (fetchData page ++ rest.1, (page, clampPerPage 100) :: rest.2)

/-- `XIVPFApiClient.get_all_listings` against a source with a fixed reported
`total_pages`. -/
def get_all_listings (fetchData : Nat → List Listing) (totalPages : Nat)
    (maxPages : Option Nat) : List Listing × List (Nat × Nat) :=
  getAllAux fetchData maxPages 1 (totalPages - 1)

/-- Number of page fetches `get_all_listings` performs: the first page is
always fetched, a cap of `0` is ignored (Python truthiness), and otherwise
the page count is `min cap total_pages` floored at one. -/
def fetchCount (totalPages : Nat) (maxPages : Option Nat) : Nat :=
  match maxPages with
  | none => max 1 totalPages
  | some m => if m = 0 then max 1 totalPages else max 1 (min m totalPages)

/-- Fetch count of `getAllAux` from `page` with `rem` pages reported ahead
(closed form used to prove the `fetchCount` characterisation). -/
def auxCount (maxPages : Option Nat) (page rem : Nat) : Nat :=
  match maxPages with
  | none => rem + 1
  | some m => if m = 0 then rem + 1 else if m ≤ page then 1 else min (rem + 1) (m - page + 1)

/-! ## Advanced (detail-level) filters (`api_client.py`, `check_advanced_filters`)

String handling is embedded structurally: Python's `str.split()` (split on
whitespace runs, no empty tokens), `str.lower()`/`.upper()` (per-character)
and the `in` substring test.  `str.strip()` applied to the whitespace-free
tokens produced by `split()` is the identity and is folded away. -/

/-- Python `str.split()` on a character list: whitespace runs separate
tokens, no empty tokens are produced.  `cur` holds the current token
reversed. -/
def splitWsAux (cur : List Char) : List Char → List (List Char)
  | [] => if cur.isEmpty then [] else [cur.reverse]
  | c :: rest =>
    if c.isWhitespace then
      if cur.isEmpty then splitWsAux [] rest
      else cur.reverse :: splitWsAux [] rest
    else splitWsAux (c :: cur) rest

/-- Python `s.split()`. -/
def pySplitWs (s : String) : List String :=
  (splitWsAux [] s.data).map (fun cs => String.mk cs)

/-- Python `s.lower()` (per-character case fold). -/
def pyLower (s : String) : String :=
  String.mk (s.data.map Char.toLower)

/-- Python `s.upper()`. -/
def pyUpper (s : String) : String :=
  String.mk (s.data.map Char.toUpper)

/-- Python `needle in hay` for character lists: `needle` occurs contiguously. -/
def subAt (needle : List Char) : List Char → Bool
  | [] => needle.isEmpty
  | c :: t => needle.isPrefixOf (c :: t) || subAt needle t

/-- Python `needle in hay` on strings. -/
def strContains (hay needle : String) : Bool :=
  subAt needle.data hay.data

/-- `job_mappings.get_job_codes_from_string`: empty string gives no codes,
otherwise the whitespace-split tokens upper-cased.  -/
def get_job_codes_from_string (job_string : String) : List String :=
  if job_string == "" then [] else (pySplitWs job_string).map pyUpper

/-- `job_mappings.get_job_ids_from_codes` against an abstract code→id table
(`JOB_CODE_TO_ID`, loaded from game data or the built-in fallback): ids of
the codes present in the table, in token order. -/
def get_job_ids_from_codes (table : String → Option Nat) (codes : List String) : List Nat :=
  codes.filterMap (fun c => table (pyUpper c))

/-- The keyword list of the content-keyword check:
`[kw.strip().lower() for kw in content_keywords.split() if kw.strip()]`. -/
def splitKeywords (s : String) : List String :=
  (pySplitWs s).map pyLower

/-- Python truthiness of the optional id-list fields. -/
def optListTruthy (o : Option (List Nat)) : Bool :=
  match o with
  | none => false
  | some l => !l.isEmpty

/-- Python truthiness of the optional numeric fields (`0` is falsy). -/
def optNatTruthy (o : Option Nat) : Bool :=
  match o with
  | none => false
  | some n => n != 0

/-- Python truthiness of the optional string fields (`""` is falsy). -/
def optStrTruthy (o : Option String) : Bool :=
  match o with
  | none => false
  | some s => !(s == "")

/-- Python truthiness of the detail `slots` field. -/
def optSlotsTruthy (o : Option (List SlotInfo)) : Bool :=
  match o with
  | none => false
  | some l => !l.isEmpty

/-- The `any([...])` guard of `check_advanced_filters` (lines 114-120):
truthiness of the five detail-level fields, except that
`beginners_welcome` is tested with `is not None`. -/
def hasAdvancedFilters (c : FilterCondition) : Bool :=
  optListTruthy c.exclude_jobs || optNatTruthy c.min_slots_available ||
    optNatTruthy c.max_slots_filled || c.beginners_welcome.isSome ||
      optStrTruthy c.content_keywords

/-- One slot triggers the excluded-job rejection: it is filled, its job
string is truthy, and some decoded job id is excluded. -/
def slotExcluded (table : String → Option Nat) (excluded : List Nat) (s : SlotInfo) : Bool :=
  s.filled && s.job != "" &&
    excluded.any (fun ej =>
      (get_job_ids_from_codes table (get_job_codes_from_string s.job)).contains ej)

/-- The excluded-job check of `check_advanced_filters` (lines 131-141):
guarded by truthiness of `exclude_jobs` and of the detail's `slots`. -/
def excludeJobsFail (table : String → Option Nat) (c : FilterCondition) (d : Listing) : Bool :=
  optListTruthy c.exclude_jobs && optSlotsTruthy d.slots &&
    (d.slots.getD []).any (slotExcluded table (c.exclude_jobs.getD []))

/-- Minimum-available-slots rejection (lines 144-146, `is not None` guard). -/
def minSlotsFail (c : FilterCondition) (d : Listing) : Bool :=
  match c.min_slots_available with
  | none => false
  | some m => decide (d.slots_available < m)

/-- Maximum-filled-slots rejection (lines 149-151). -/
def maxSlotsFail (c : FilterCondition) (d : Listing) : Bool :=
  match c.max_slots_filled with
  | none => false
  | some m => decide (m < d.slots_filled)

/-- Beginners-welcome rejection (lines 154-156): unequal Python values,
where the detail's field may be `None`. -/
def beginnersFail (c : FilterCondition) (d : Listing) : Bool :=
  match c.beginners_welcome with
  | none => false
  | some b => d.beginners_welcome != some b

/-- Content-keyword rejection (lines 159-168): truthy keyword string, a
non-empty keyword list, and no keyword occurring in the case-folded
description. -/
def keywordFail (c : FilterCondition) (d : Listing) : Bool :=
  match c.content_keywords with
  | none => false
  | some s =>
    if s == "" then false
    else if (splitKeywords s).isEmpty then false
    else !((splitKeywords s).any (fun kw => strContains (pyLower d.description) kw))

/-- `XIVPFApiClient.check_advanced_filters`, with the detail endpoint and the
job table as oracles.  Returns `(verdict, detail fetched?)`; a non-404
detail failure propagates as `Except.error`. -/
def check_advanced_filters (detail : Nat → DetailResult) (table : String → Option Nat)
    (listing : Listing) (c : FilterCondition) : Except Unit (Bool × Bool) :=
  if !hasAdvancedFilters c then .ok (true, false)
  else
    match detail listing.id with
    | .notFound => .ok (false, true)
    | .transportErr => .error ()
    | .found d =>
      if excludeJobsFail table c d then .ok (false, true)
      else if minSlotsFail c d then .ok (false, true)
      else if maxSlotsFail c d then .ok (false, true)
      else if beginnersFail c d then .ok (false, true)
      else if keywordFail c d then .ok (false, true)
      else .ok (true, true)

/-! ### The detail stage as the spec describes it (for claim C4)

`detailStageSpec` renders claim C4 literally, reading "a detail-level field
is set" as "the field is not `None`"; `detailStageAmended` is the corrected
reading with Python truthiness in the fast-path guard and a vacuously
passing keyword check, stated as one flat conjunction of the five
predicates. -/

/-- Spec reading of the excluded-job predicate: no filled slot decodes to an
excluded job id. -/
def specExcludeOk (table : String → Option Nat) (c : FilterCondition) (d : Listing) : Bool :=
  !((d.slots.getD []).any (fun s =>
    s.filled && (c.exclude_jobs.getD []).any (fun ej =>
      (get_job_ids_from_codes table (get_job_codes_from_string s.job)).contains ej)))

/-- Spec reading of the minimum-available-slots predicate. -/
def specMinOk (c : FilterCondition) (d : Listing) : Bool :=
  match c.min_slots_available with
  | none => true
  | some m => decide (m ≤ d.slots_available)

/-- Spec reading of the maximum-filled-slots predicate. -/
def specMaxOk (c : FilterCondition) (d : Listing) : Bool :=
  match c.max_slots_filled with
  | none => true
  | some m => decide (d.slots_filled ≤ m)

/-- Spec reading of the beginners-welcome equality predicate. -/
def specBegOk (c : FilterCondition) (d : Listing) : Bool :=
  match c.beginners_welcome with
  | none => true
  | some b => d.beginners_welcome == some b

/-- Claim C4's keyword predicate, literally: pass iff ANY case-folded
whitespace-split keyword is a substring of the case-folded description. -/
def specKwStrict (c : FilterCondition) (d : Listing) : Bool :=
  match c.content_keywords with
  | none => true
  | some s => (splitKeywords s).any (fun kw => strContains (pyLower d.description) kw)

/-- Amended keyword predicate: additionally passes vacuously when the
keyword string splits into no keywords. -/
def specKwAmended (c : FilterCondition) (d : Listing) : Bool :=
  match c.content_keywords with
  | none => true
  | some s =>
    (splitKeywords s).isEmpty ||
      (splitKeywords s).any (fun kw => strContains (pyLower d.description) kw)

/-- Claim C4 rendered literally: skip the fetch only when every detail-level
field is `None`; otherwise fetch (failing closed), and AND the five
predicates. -/
def detailStageSpec (detail : Nat → DetailResult) (table : String → Option Nat)
    (listing : Listing) (c : FilterCondition) : Except Unit (Bool × Bool) :=
  if c.exclude_jobs = none ∧ c.min_slots_available = none ∧ c.max_slots_filled = none ∧
      c.beginners_welcome = none ∧ c.content_keywords = none then .ok (true, false)
  else
    match detail listing.id with
    | .notFound => .ok (false, true)
    | .transportErr => .error ()
    | .found d =>
      .ok (specExcludeOk table c d && specMinOk c d && specMaxOk c d &&
        specBegOk c d && specKwStrict c d, true)

/-- A detail-level field is truthily set: a non-empty exclusion list, a
non-zero numeric bound, an assigned beginners flag, or a non-empty keyword
string. -/
def advancedFieldSet (c : FilterCondition) : Bool :=
  decide (c.exclude_jobs.getD [] ≠ []) || decide (c.min_slots_available.getD 0 ≠ 0) ||
    decide (c.max_slots_filled.getD 0 ≠ 0) || decide (c.beginners_welcome ≠ none) ||
      decide (c.content_keywords.getD "" ≠ "")

/-- The amended claim C4: fetch-free pass when no detail-level field is
truthily set; otherwise fetch (failing closed) and AND the five predicates,
with zero numeric bounds participating harmlessly and an empty keyword list
passing vacuously. -/
def detailStageAmended (detail : Nat → DetailResult) (table : String → Option Nat)
    (listing : Listing) (c : FilterCondition) : Except Unit (Bool × Bool) :=
  if advancedFieldSet c then
    match detail listing.id with
    | .notFound => .ok (false, true)
    | .transportErr => .error ()
    | .found d =>
      .ok (specExcludeOk table c d && specMinOk c d && specMaxOk c d &&
        specBegOk c d && specKwAmended c d, true)
  else .ok (true, false)

/-! ## The merge sort of the poll loop (`monitor.py`, lines 233-241)

`all_listings.sort(key=lambda l: (l.updated_at.replace(second=0,
microsecond=0), l.duty_type, -l.time_left), reverse=True)` is a stable sort
placing larger key tuples first.  A stable sort is determined uniquely by
its total preorder, so it is embedded as `List.insertionSort` (stable,
sorted) with the comparator "key of the first element is tuple-wise at least
the key of the second". -/

/-- `updated_at.replace(second=0, microsecond=0)`: the timestamp floored to
its minute. -/
def minuteKey (ts : Int) : Int :=
  (ts / 60) * 60

/-- The Python sort key `(minute(updated_at), duty_type, -time_left)`. -/
def sortKey (l : Listing) : Int × String × Int :=
  (minuteKey l.updated_at, l.duty_type, -l.time_left)

/-- Python `<` on single characters: by code point. -/
def charLtB (a b : Char) : Bool :=
  decide (a.toNat < b.toNat)

/-- Python `<` on strings as character lists: lexicographic by code point,
with a proper leading run making the shorter string smaller. -/
def charListLtB : List Char → List Char → Bool
  | [], [] => false
  | [], _ :: _ => true
  | _ :: _, [] => false
  | a :: as, b :: bs => charLtB a b || (a == b && charListLtB as bs)

/-- Python `<` on strings. -/
def strLtB (a b : String) : Bool :=
  charListLtB a.data b.data

/-- Python tuple `<=` on the sort keys (lexicographic). -/
def keyLeB (x y : Int × String × Int) : Bool :=
  decide (x.1 < y.1) ||
    (decide (x.1 = y.1) &&
      (strLtB x.2.1 y.2.1 || (decide (x.2.1 = y.2.1) && decide (x.2.2 ≤ y.2.2))))

/-- "`a` may precede `b`" in the `reverse=True` sorted output:
`sortKey b <= sortKey a`. -/
def listingDescLe (a b : Listing) : Prop :=
  keyLeB (sortKey b) (sortKey a) = true

instance : DecidableRel listingDescLe :=
  fun a b => instDecidableEqBool (keyLeB (sortKey b) (sortKey a)) true

/-- The cycle's merge sort: the stable descending-key sort of the merged
result list.  (Python's `list.sort(key, reverse=True)` is the unique stable
sort by this total preorder, so any stable sorted-by-it permutation — here
insertion sort — is the same function.) -/
def sortListings (xs : List Listing) : List Listing :=
  xs.insertionSort listingDescLe

/-- Claim C5's asserted order: most-recent minute first, ties by duty type
ascending, further ties by remaining time descending. -/
def specLeC5 (a b : Listing) : Bool :=
  decide (minuteKey b.updated_at < minuteKey a.updated_at) ||
    (decide (minuteKey a.updated_at = minuteKey b.updated_at) &&
      (strLtB a.duty_type b.duty_type ||
        (decide (a.duty_type = b.duty_type) && decide (b.time_left ≤ a.time_left))))

/-! # Theorems -/

/-- `List.contains` agrees with list membership (helper for the proofs
below). -/
@[simp] theorem containsEqMem {α : Type} [BEq α] [LawfulBEq α] (l : List α) (a : α) :
    l.contains a = decide (a ∈ l) := by
  simp [List.contains]

/-- In the main branch (≥ 2 current listings, some targets, a prior
snapshot), `check_expired_by_order` computes the expired-target removal from
the previous snapshot truncated at the current sequence's break index. -/
theorem check_expired_main (targets : List MonitorTarget) (lastL cur : List Listing)
    (hlen : 2 ≤ cur.length) (htne : targets ≠ []) (hprev : lastL ≠ []) :
    check_expired_by_order targets lastL cur =
      (((lastL.filter (fun l =>
          (((lastL.take (lastNewIndex cur + 1)).map (·.id)).filter
            (fun i => !(cur.map (·.id)).contains i && targets.any (fun t => t.listing_id == i))).contains l.id)).map
          (fun l => Event.expiredGone l.id)),
        targets.filter (fun t =>
          !(((lastL.take (lastNewIndex cur + 1)).map (·.id)).filter
            (fun i => !(cur.map (·.id)).contains i && targets.any (fun t => t.listing_id == i))).contains t.listing_id),
        cur) := by
  have hT : targets.isEmpty = false := by
    cases targets with
    | nil => exact absurd rfl htne
    | cons a l => rfl
  have hP : lastL.isEmpty = false := by
    cases lastL with
    | nil => exact absurd rfl hprev
    | cons a l => rfl
  have hH : decide (cur.length < 2) = false := by
    simp only [decide_eq_false_iff_not]
    omega
  unfold check_expired_by_order
  rw [hT, hH, hP]
  simp

/-- Claim C1 (corrected): `check_expired_by_order` slices the *previous*
snapshot at the break index computed on the *current* sequence, not at the
previous snapshot's own confirmed-current run.  An id inside the previous
snapshot's own longest non-decreasing remaining-time run, absent from the
current sequence and actively monitored, is nevertheless not removed when
the current sequence's run breaks earlier: previous snapshot
`[(id 1, 10min), (id 2, 20min)]` (its own run covers both), current
`[(id 3, 5min), (id 4, 3min)]` (break index 0), target id 2 — no event is
emitted and the registry keeps id 2. -/
theorem c1_counterexample :
    2 ∈ (([mkL 1 10 0, mkL 2 20 0].take
        (lastNewIndex [mkL 1 10 0, mkL 2 20 0] + 1)).map (·.id)) ∧
    2 ∉ ([mkL 3 5 0, mkL 4 3 0].map (·.id)) ∧
    2 ∈ ([(⟨2, 0, 0⟩ : MonitorTarget)].map (·.listing_id)) ∧
    2 ≤ ([mkL 3 5 0, mkL 4 3 0] : List Listing).length ∧
    ([mkL 1 10 0, mkL 2 20 0] : List Listing) ≠ [] ∧
    check_expired_by_order [⟨2, 0, 0⟩] [mkL 1 10 0, mkL 2 20 0] [mkL 3 5 0, mkL 4 3 0] =
      ([], [⟨2, 0, 0⟩], [mkL 3 5 0, mkL 4 3 0]) := by
  decide

/-- Claim C1 amended: with a prior snapshot and at least two current
listings, any id among the first `k+1` entries of the previous snapshot —
where `k` is the last index of the longest leading non-decreasing
remaining-time run of the *current* sequence — that is absent from the
entire current sequence and is an active monitored target is removed with an
"expired, no longer present" notification; and any id appearing anywhere in
the current sequence is never removed by this check. -/
theorem c1_amended (targets : List MonitorTarget) (lastL cur : List Listing) (i : Nat)
    (hlen : 2 ≤ cur.length) (hprev : lastL ≠ []) :
    (i ∈ (lastL.take (lastNewIndex cur + 1)).map (·.id) →
      i ∉ cur.map (·.id) →
      i ∈ targets.map (·.listing_id) →
      Event.expiredGone i ∈ (check_expired_by_order targets lastL cur).1 ∧
        i ∉ (check_expired_by_order targets lastL cur).2.1.map (·.listing_id)) ∧
    (i ∈ cur.map (·.id) →
      ∀ t ∈ targets, t.listing_id = i → t ∈ (check_expired_by_order targets lastL cur).2.1) := by
  constructor
  · intro hpre hcur htar
    have htne : targets ≠ [] := by
      intro h
      subst h
      simp at htar
    rw [check_expired_main targets lastL cur hlen htne hprev]
    have hexp : i ∈ ((lastL.take (lastNewIndex cur + 1)).map (·.id)).filter
        (fun j => !(cur.map (·.id)).contains j && targets.any (fun t => t.listing_id == j)) := by
      simp only [List.mem_filter]
      refine ⟨hpre, ?_⟩
      simp only [Bool.and_eq_true, Bool.not_eq_true', containsEqMem, decide_eq_false_iff_not,
        List.any_eq_true, beq_iff_eq]
      refine ⟨hcur, ?_⟩
      obtain ⟨t, ht, hti⟩ := List.mem_map.mp htar
      exact ⟨t, ht, hti⟩
    constructor
    · obtain ⟨l, hl, hli⟩ := List.mem_map.mp hpre
      have hlast : l ∈ lastL := List.take_subset _ _ hl
      refine List.mem_map.mpr ⟨l, ?_, by rw [hli]⟩
      simp only [List.mem_filter]
      refine ⟨hlast, ?_⟩
      rw [containsEqMem, decide_eq_true_eq, hli]
      exact hexp
    · intro hmem
      obtain ⟨t, ht, hti⟩ := List.mem_map.mp hmem
      simp only [List.mem_filter] at ht
      have h2 := ht.2
      rw [Bool.not_eq_true', containsEqMem, decide_eq_false_iff_not, hti] at h2
      exact h2 hexp
  · intro hcur t ht hti
    by_cases htne : targets = []
    · subst htne
      simp at ht
    · rw [check_expired_main targets lastL cur hlen htne hprev]
      simp only [List.mem_filter]
      refine ⟨ht, ?_⟩
      rw [Bool.not_eq_true', containsEqMem, decide_eq_false_iff_not, hti]
      intro hbad
      simp only [List.mem_filter] at hbad
      have h2 := hbad.2
      rw [Bool.and_eq_true] at h2
      have h3 := h2.1
      rw [Bool.not_eq_true', containsEqMem, decide_eq_false_iff_not] at h3
      exact h3 hcur

/-- Concrete instance of `c1_amended`: previous snapshot
`[(id 5, 10min), (id 6, 20min)]`, current `[(id 7, 1min), (id 8, 2min)]`
(non-decreasing, so the break index is 1), monitored id 5 disappears and is
removed with a notification. -/
theorem c1_amended_witness :
    Event.expiredGone 5 ∈
      (check_expired_by_order [⟨5, 0, 0⟩] [mkL 5 10 0, mkL 6 20 0] [mkL 7 1 0, mkL 8 2 0]).1 ∧
    5 ∉ (check_expired_by_order [⟨5, 0, 0⟩] [mkL 5 10 0, mkL 6 20 0]
        [mkL 7 1 0, mkL 8 2 0]).2.1.map (·.listing_id) :=
  (c1_amended [⟨5, 0, 0⟩] [mkL 5 10 0, mkL 6 20 0] [mkL 7 1 0, mkL 8 2 0] 5
    (by decide) (by decide)).1 (by decide) (by decide) (by decide)

/-- The snapshot component returned by `check_expired_by_order`: replaced by
the current sequence exactly when the guard passes (≥ 2 current listings and
a non-empty registry). -/
theorem check_expired_snapshot (targets : List MonitorTarget) (lastL cur : List Listing) :
    (check_expired_by_order targets lastL cur).2.2 =
      if 2 ≤ cur.length ∧ targets ≠ [] then cur else lastL := by
  unfold check_expired_by_order
  by_cases h1 : (decide (cur.length < 2) || targets.isEmpty) = true
  · rw [if_pos h1]
    have hn : ¬(2 ≤ cur.length ∧ targets ≠ []) := by
      simp only [Bool.or_eq_true, decide_eq_true_eq, List.isEmpty_iff] at h1
      rcases h1 with h | h
      · intro hc
        omega
      · intro hc
        exact hc.2 h
    rw [if_neg hn]
  · rw [if_neg h1]
    have h1' : (decide (cur.length < 2) || targets.isEmpty) = false := Bool.eq_false_iff.mpr h1
    have h2 := Bool.or_eq_false_iff.mp h1'
    have hp : 2 ≤ cur.length ∧ targets ≠ [] := by
      constructor
      · have := of_decide_eq_false h2.1
        omega
      · exact List.isEmpty_eq_false.mp h2.2
    rw [if_pos hp]
    by_cases hL : lastL.isEmpty = true
    · rw [if_pos hL]
    · rw [if_neg hL]

/-- Claim C2 (corrected): the snapshot is *not* replaced unconditionally.
A concrete cycle with no monitored targets, a stored one-listing snapshot
and a two-listing current merged sequence leaves the snapshot untouched. -/
theorem c2_counterexample :
    (runCycle (fun _ => DetailResult.notFound) 0 0 true [mkL 2 5 0, mkL 3 4 0]
        { targets := [], lastListings := [mkL 1 10 0], lastDisplayedIds := [] }).1.lastListings =
      [mkL 1 10 0] ∧
    ([mkL 1 10 0] : List Listing) ≠ [mkL 2 5 0, mkL 3 4 0] := by
  decide

/-- Claim C2 amended: after a poll cycle, the stored snapshot equals the
current cycle's merged sequence exactly when monitored targets exist, the
expiration check is enabled, and the merged sequence has at least two
listings; in every other cycle — fewer than two listings, no monitored
targets, or the check disabled — the snapshot is left unchanged.  (A cycle
with no *prior* snapshot but passing those guards does replace it.) -/
theorem c2_amended (api : Nat → DetailResult) (now threshold : Int) (enableExpire : Bool)
    (allListings : List Listing) (st : MonitorState) :
    (runCycle api now threshold enableExpire allListings st).1.lastListings =
      if st.targets ≠ [] ∧ enableExpire = true ∧ 2 ≤ allListings.length then allListings
      else st.lastListings := by
  unfold runCycle
  by_cases hT : st.targets.isEmpty = true
  · rw [if_pos hT]
    have h0 : st.targets = [] := List.isEmpty_iff.mp hT
    simp [h0]
  · rw [if_neg hT]
    have hTne : st.targets ≠ [] := List.isEmpty_eq_false.mp (Bool.eq_false_iff.mpr hT)
    by_cases hE : enableExpire = true
    · by_cases hA : allListings.isEmpty = true
      · have h0 : allListings = [] := List.isEmpty_iff.mp hA
        subst h0
        simp [hE, hTne]
      · have hA' : allListings.isEmpty = false := Bool.eq_false_iff.mpr hA
        have hg : (enableExpire && !allListings.isEmpty) = true := by
          rw [hE, hA']
          rfl
        have hAne : allListings ≠ [] := fun h0 => hA (by rw [h0]; rfl)
        simp [hg, hE, hTne]
        rw [if_neg hAne, check_expired_snapshot]
        simp [hTne]
    · have hg : (enableExpire && !allListings.isEmpty) = false := by
        rw [Bool.eq_false_iff.mpr hE]
        rfl
      rw [if_neg (show ¬(st.targets ≠ [] ∧ enableExpire = true ∧ 2 ≤ allListings.length) from
        fun hc => hE hc.2.1)]
      simp [hg]

/-- The no-targets display branch: the table is shown, and the shown-id set
replaced, exactly when some current id was not displayed before. -/
theorem display_step_spec (lastDisplayed : List Nat) (allListings : List Listing) :
    display_step lastDisplayed allListings =
      if anyNewId lastDisplayed allListings then
        (true, allListings.map (fun l => l.id))
      else (false, lastDisplayed) := by
  unfold display_step
  by_cases hA : allListings.isEmpty = true
  · have h0 : allListings = [] := List.isEmpty_iff.mp hA
    subst h0
    simp [anyNewId]
  · rw [if_neg hA]
    by_cases hEx : anyNewId lastDisplayed allListings
    · rw [if_pos hEx]
      obtain ⟨i, hi, hni⟩ := hEx
      have hmem : i ∈ (allListings.map (fun l => l.id)).filter
          (fun j => !lastDisplayed.contains j) := by
        simp only [List.mem_filter]
        exact ⟨hi, by simp [hni]⟩
      have hne : ((allListings.map (fun l => l.id)).filter
          (fun j => !lastDisplayed.contains j)).isEmpty = false := by
        rw [List.isEmpty_eq_false]
        exact List.ne_nil_of_mem hmem
      rw [hne]
      rfl
    · rw [if_neg hEx]
      have hnil : (allListings.map (fun l => l.id)).filter
          (fun j => !lastDisplayed.contains j) = [] := by
        rw [List.filter_eq_nil_iff]
        intro a ha
        simp only [Bool.not_eq_true', containsEqMem, decide_eq_false_iff_not, not_not]
        by_contra hna
        exact hEx ⟨a, ha, hna⟩
      rw [hnil]
      rfl

/-- Claim C9 (corrected): with no monitored targets the table display is
*not* triggered by mere set difference.  With last-shown ids `{1, 2}` and a
current cycle whose only result has id 1, the two sets differ yet nothing is
displayed and the stored set is kept. -/
theorem c9_counterexample :
    (runCycle (fun _ => DetailResult.notFound) 0 0 true [mkL 1 5 0]
        { targets := [], lastListings := [], lastDisplayedIds := [1, 2] }).2 = [] ∧
    (runCycle (fun _ => DetailResult.notFound) 0 0 true [mkL 1 5 0]
        { targets := [], lastListings := [], lastDisplayedIds := [1, 2] }).1.lastDisplayedIds =
      [1, 2] ∧
    ¬(∀ i : Nat, i ∈ ([mkL 1 5 0].map (·.id)) ↔ i ∈ [1, 2]) := by
  refine ⟨by decide, by decide, ?_⟩
  intro h
  have := (h 2).mpr (by decide)
  simp [mkL] at this

/-- Claim C9 amended: in a cycle with no monitored targets, the listings
table is displayed and the last-shown id set replaced by the current id set
exactly when some current id is absent from the last-shown set; otherwise
(including when the current result list is empty, even if previously shown
ids have vanished) both are suppressed. -/
theorem c9_amended (api : Nat → DetailResult) (now threshold : Int) (enableExpire : Bool)
    (allListings : List Listing) (st : MonitorState) (h : st.targets = []) :
    (Event.showTable (allListings.map (fun l => l.id)) ∈
        (runCycle api now threshold enableExpire allListings st).2 ↔
      anyNewId st.lastDisplayedIds allListings) ∧
    (runCycle api now threshold enableExpire allListings st).1.lastDisplayedIds =
      (if anyNewId st.lastDisplayedIds allListings then allListings.map (fun l => l.id)
       else st.lastDisplayedIds) := by
  have hT : st.targets.isEmpty = true := by
    rw [h]
    rfl
  unfold runCycle
  rw [if_pos hT, display_step_spec]
  by_cases hEx : anyNewId st.lastDisplayedIds allListings
  · rw [if_pos hEx, if_pos hEx]
    simp [hEx]
  · rw [if_neg hEx, if_neg hEx]
    simp [hEx]

/-- Concrete instance of `c9_amended`: a fresh id 7 triggers the display and
the shown-id set update. -/
theorem c9_amended_witness :
    (Event.showTable ([mkL 7 5 0].map (fun l => l.id)) ∈
        (runCycle (fun _ => DetailResult.notFound) 0 0 true [mkL 7 5 0]
          { targets := [], lastListings := [], lastDisplayedIds := [1] }).2 ↔
      anyNewId [1] [mkL 7 5 0]) ∧
    (runCycle (fun _ => DetailResult.notFound) 0 0 true [mkL 7 5 0]
        { targets := [], lastListings := [], lastDisplayedIds := [1] }).1.lastDisplayedIds =
      (if anyNewId [1] [mkL 7 5 0] then [mkL 7 5 0].map (fun l => l.id) else [1]) :=
  c9_amended (fun _ => DetailResult.notFound) 0 0 true [mkL 7 5 0]
    { targets := [], lastListings := [], lastDisplayedIds := [1] } rfl

/-! ### Target lifecycle lemmas -/

/-- `check_monitor_targets` on a cons splits into the head's check and the
rest. -/
theorem cmt_cons (api : Nat → DetailResult) (now threshold : Int) (u : MonitorTarget)
    (rest : List MonitorTarget) :
    check_monitor_targets api now threshold (u :: rest) =
      ((check_target api now threshold u).1 ++ (check_monitor_targets api now threshold rest).1,
       (check_target api now threshold u).2 ++ (check_monitor_targets api now threshold rest).2) :=
  rfl

/-- `check_monitor_targets` processes an appended registry as the two parts
independently, concatenating surviving entries and notifications. -/
theorem cmt_append (api : Nat → DetailResult) (now threshold : Int)
    (xs ys : List MonitorTarget) :
    check_monitor_targets api now threshold (xs ++ ys) =
      ((check_monitor_targets api now threshold xs).1 ++
        (check_monitor_targets api now threshold ys).1,
       (check_monitor_targets api now threshold xs).2 ++
        (check_monitor_targets api now threshold ys).2) := by
  induction xs with
  | nil => simp [check_monitor_targets]
  | cons u rest ih => simp [check_monitor_targets, ih]

/-- Each surviving entry of a single target's check carries that target's id. -/
theorem check_target_id (api : Nat → DetailResult) (now threshold : Int)
    (u x : MonitorTarget) (h : x ∈ (check_target api now threshold u).1) :
    x.listing_id = u.listing_id := by
  cases hA : api u.listing_id with
  | found l =>
    simp only [check_target, hA] at h
    split_ifs at h <;> simp_all
  | notFound => simp [check_target, hA] at h
  | transportErr =>
    simp only [check_target, hA, List.mem_singleton] at h
    rw [h]

/-- Surviving registry ids come from the input registry. -/
theorem cmt_reg_ids (api : Nat → DetailResult) (now threshold : Int) :
    ∀ (ts : List MonitorTarget) (x : MonitorTarget),
      x ∈ (check_monitor_targets api now threshold ts).1 →
        x.listing_id ∈ ts.map (fun t => t.listing_id) := by
  intro ts
  induction ts with
  | nil => simp [check_monitor_targets]
  | cons u rest ih =>
    intro x hx
    rw [cmt_cons] at hx
    rcases List.mem_append.mp hx with h | h
    · exact List.mem_cons.mpr (Or.inl (check_target_id api now threshold u x h))
    · exact List.mem_cons.mpr (Or.inr (ih x h))

/-- A 404 detail refetch removes the target and reports it ended/deleted. -/
theorem check_target_notFound (api : Nat → DetailResult) (now threshold : Int)
    (t : MonitorTarget) (h : api t.listing_id = DetailResult.notFound) :
    check_target api now threshold t = ([], [Event.endedDeleted t.listing_id]) := by
  simp [check_target, h]

/-- A strictly newer detail timestamp emits "updated" and resets staleness. -/
theorem check_target_updated (api : Nat → DetailResult) (now threshold : Int)
    (t : MonitorTarget) (l : Listing) (h : api t.listing_id = DetailResult.found l)
    (hn : t.last_update < l.updated_at) :
    check_target api now threshold t =
      ([{ t with last_update := l.updated_at, time_without_update := 0 }],
        [Event.updated l.id]) := by
  simp [check_target, h, hn]

/-- No newer timestamp and staleness over the threshold: "expired", removed. -/
theorem check_target_stale_expired (api : Nat → DetailResult) (now threshold : Int)
    (t : MonitorTarget) (l : Listing) (h : api t.listing_id = DetailResult.found l)
    (hn : ¬t.last_update < l.updated_at) (hexp : threshold < now - t.last_update) :
    check_target api now threshold t = ([], [Event.expiredStale l.id]) := by
  simp [check_target, h, hn, hexp]

/-- No newer timestamp, staleness within the threshold: the entry stays with
its staleness set to the elapsed time. -/
theorem check_target_stale_keep (api : Nat → DetailResult) (now threshold : Int)
    (t : MonitorTarget) (l : Listing) (h : api t.listing_id = DetailResult.found l)
    (hn : ¬t.last_update < l.updated_at) (hexp : ¬threshold < now - t.last_update) :
    check_target api now threshold t =
      ([{ t with time_without_update := now - t.last_update }], []) := by
  simp [check_target, h, hn, hexp]

/-- Claim C3: per-target lifecycle of `check_monitor_targets`.  For every
registry entry (distinct ids, as in the Python dict): a 404 detail refetch
removes the target immediately with an ended/deleted status; a strictly
newer detail update time emits "updated" and keeps the entry with staleness
0 and the new time; otherwise staleness becomes the elapsed time since the
stored update time, and if it exceeds `expire_threshold` an "expired"
notification is emitted and the registry no longer holds the id, else the
entry is kept with that staleness. -/
theorem c3_lifecycle (api : Nat → DetailResult) (now threshold : Int)
    (targets : List MonitorTarget) (t : MonitorTarget)
    (hnd : (targets.map (fun u => u.listing_id)).Nodup) (ht : t ∈ targets) :
    (api t.listing_id = DetailResult.notFound →
      t.listing_id ∉ (check_monitor_targets api now threshold targets).1.map
          (fun u => u.listing_id) ∧
        Event.endedDeleted t.listing_id ∈ (check_monitor_targets api now threshold targets).2) ∧
    (∀ l : Listing, api t.listing_id = DetailResult.found l →
      (t.last_update < l.updated_at →
        Event.updated l.id ∈ (check_monitor_targets api now threshold targets).2 ∧
          { t with last_update := l.updated_at, time_without_update := 0 } ∈
            (check_monitor_targets api now threshold targets).1) ∧
      (¬t.last_update < l.updated_at →
        (threshold < now - t.last_update →
          Event.expiredStale l.id ∈ (check_monitor_targets api now threshold targets).2 ∧
            t.listing_id ∉ (check_monitor_targets api now threshold targets).1.map
              (fun u => u.listing_id)) ∧
        (¬threshold < now - t.last_update →
          { t with time_without_update := now - t.last_update } ∈
            (check_monitor_targets api now threshold targets).1))) := by
  obtain ⟨pre, suf, rfl⟩ := List.append_of_mem ht
  have hreg : (check_monitor_targets api now threshold (pre ++ t :: suf)).1 =
      (check_monitor_targets api now threshold pre).1 ++
        ((check_target api now threshold t).1 ++
          (check_monitor_targets api now threshold suf).1) := by
    rw [cmt_append, cmt_cons]
  have hevs : (check_monitor_targets api now threshold (pre ++ t :: suf)).2 =
      (check_monitor_targets api now threshold pre).2 ++
        ((check_target api now threshold t).2 ++
          (check_monitor_targets api now threshold suf).2) := by
    rw [cmt_append, cmt_cons]
  have hmap : (pre.map (fun u => u.listing_id)).Nodup ∧
      t.listing_id ∉ pre.map (fun u => u.listing_id) ∧
      t.listing_id ∉ suf.map (fun u => u.listing_id) := by
    rw [List.map_append, List.map_cons, List.nodup_append] at hnd
    obtain ⟨h1, h2, h3⟩ := hnd
    refine ⟨h1, fun hmem => ?_, (List.nodup_cons.mp h2).1⟩
    exact h3 hmem (List.mem_cons_self _ _)
  have hnotid : (check_target api now threshold t).1 = [] →
      t.listing_id ∉ ((check_monitor_targets api now threshold (pre ++ t :: suf)).1.map
        (fun u => u.listing_id)) := by
    intro hempty hmem
    rw [hreg, hempty] at hmem
    simp only [List.nil_append, List.map_append, List.mem_append] at hmem
    rcases hmem with h | h
    · obtain ⟨x, hx, hxid⟩ := List.mem_map.mp h
      have := cmt_reg_ids api now threshold pre x hx
      rw [hxid] at this
      exact hmap.2.1 this
    · obtain ⟨x, hx, hxid⟩ := List.mem_map.mp h
      have := cmt_reg_ids api now threshold suf x hx
      rw [hxid] at this
      exact hmap.2.2 this
  have hmidreg : ∀ x : MonitorTarget, x ∈ (check_target api now threshold t).1 →
      x ∈ (check_monitor_targets api now threshold (pre ++ t :: suf)).1 := by
    intro x hx
    rw [hreg]
    exact List.mem_append.mpr (Or.inr (List.mem_append.mpr (Or.inl hx)))
  have hmidev : ∀ e : Event, e ∈ (check_target api now threshold t).2 →
      e ∈ (check_monitor_targets api now threshold (pre ++ t :: suf)).2 := by
    intro e he
    rw [hevs]
    exact List.mem_append.mpr (Or.inr (List.mem_append.mpr (Or.inl he)))
  constructor
  · intro hA
    have hc := check_target_notFound api now threshold t hA
    constructor
    · exact hnotid (by rw [hc])
    · exact hmidev _ (by rw [hc]; exact List.mem_singleton.mpr rfl)
  · intro l hA
    constructor
    · intro hn
      have hc := check_target_updated api now threshold t l hA hn
      constructor
      · exact hmidev _ (by rw [hc]; exact List.mem_singleton.mpr rfl)
      · exact hmidreg _ (by rw [hc]; exact List.mem_singleton.mpr rfl)
    · intro hn
      constructor
      · intro hexp
        have hc := check_target_stale_expired api now threshold t l hA hn hexp
        constructor
        · exact hmidev _ (by rw [hc]; exact List.mem_singleton.mpr rfl)
        · exact hnotid (by rw [hc])
      · intro hexp
        have hc := check_target_stale_keep api now threshold t l hA hn hexp
        exact hmidreg _ (by rw [hc]; exact List.mem_singleton.mpr rfl)

/-- Concrete instance of `c3_lifecycle`, the spec's staleness example: a
target with threshold 300 s and 301 s elapsed since its stored update time,
refetched with no newer timestamp, is expired and dropped from the
registry. -/
theorem c3_lifecycle_witness :
    Event.expiredStale 5 ∈
      (check_monitor_targets (fun _ => DetailResult.found (mkL 5 3 0)) 301 300
        [⟨5, 0, 0⟩]).2 ∧
    (5 : Nat) ∉ (check_monitor_targets (fun _ => DetailResult.found (mkL 5 3 0)) 301 300
        [⟨5, 0, 0⟩]).1.map (fun u => u.listing_id) :=
  (((c3_lifecycle (fun _ => DetailResult.found (mkL 5 3 0)) 301 300 [⟨5, 0, 0⟩] ⟨5, 0, 0⟩
      (by decide) (List.mem_singleton.mpr rfl)).2 (mkL 5 3 0) rfl).2
    (by decide)).1 (by decide)

/-! ### Failure isolation -/

/-- A failing fetch makes `search_listings` return nothing and leave the
notified set untouched. -/
theorem search_listings_error (adv : Listing → Except Unit Bool) (notified : List Nat)
    (notify : Bool) :
    search_listings (Except.error ()) adv notified notify = ([], [], notified) :=
  rfl

/-- Claim C8: failure isolation within a cycle.  A condition whose fetch
fails contributes nothing and changes nothing: the per-condition loop over
`pre ++ [bad] ++ suf` produces exactly the result of the loop over
`pre ++ suf`.  The per-target loop decomposes into the independent checks of
the prefix, the target and the suffix, so one target's failing detail fetch
(kept untouched on a transport error) never aborts the remaining targets. -/
theorem c8_isolation (pre suf : List SearchInput) (bad : SearchInput) (notified : List Nat)
    (hbad : bad.1 = Except.error ())
    (api : Nat → DetailResult) (now threshold : Int)
    (tpre tsuf : List MonitorTarget) (t : MonitorTarget) :
    searchAll (pre ++ bad :: suf) notified = searchAll (pre ++ suf) notified ∧
    check_monitor_targets api now threshold (tpre ++ t :: tsuf) =
      ((check_monitor_targets api now threshold tpre).1 ++
        ((check_target api now threshold t).1 ++
          (check_monitor_targets api now threshold tsuf).1),
       (check_monitor_targets api now threshold tpre).2 ++
        ((check_target api now threshold t).2 ++
          (check_monitor_targets api now threshold tsuf).2)) ∧
    (api t.listing_id = DetailResult.transportErr →
      check_target api now threshold t = ([t], [])) := by
  refine ⟨?_, by rw [cmt_append, cmt_cons], fun hA => by simp [check_target, hA]⟩
  induction pre generalizing notified with
  | nil =>
    have hb : search_listings bad.1 bad.2 notified true = ([], [], notified) := by
      rw [hbad]
      rfl
    simp [searchAll, hb]
  | cons u rest ih =>
    simp only [List.cons_append, searchAll, List.append_eq]
    rw [ih]

/-- Concrete instance of `c8_isolation`: one failing condition among two
healthy ones, and one target whose detail fetch hits a transport error. -/
theorem c8_isolation_witness :
    searchAll [(Except.ok [mkL 1 5 0], fun _ => Except.ok true),
        ((Except.error (), fun _ => Except.ok true) : SearchInput),
        (Except.ok [mkL 2 5 0], fun _ => Except.ok true)] [] =
      searchAll [(Except.ok [mkL 1 5 0], fun _ => Except.ok true),
        (Except.ok [mkL 2 5 0], fun _ => Except.ok true)] [] ∧
    check_monitor_targets (fun _ => DetailResult.transportErr) 0 300
        ([] ++ (⟨7, 0, 0⟩ : MonitorTarget) :: [⟨8, 0, 0⟩]) =
      ((check_monitor_targets (fun _ => DetailResult.transportErr) 0 300 []).1 ++
        ((check_target (fun _ => DetailResult.transportErr) 0 300 ⟨7, 0, 0⟩).1 ++
          (check_monitor_targets (fun _ => DetailResult.transportErr) 0 300 [⟨8, 0, 0⟩]).1),
       (check_monitor_targets (fun _ => DetailResult.transportErr) 0 300 []).2 ++
        ((check_target (fun _ => DetailResult.transportErr) 0 300 ⟨7, 0, 0⟩).2 ++
          (check_monitor_targets (fun _ => DetailResult.transportErr) 0 300 [⟨8, 0, 0⟩]).2)) ∧
    ((fun _ => DetailResult.transportErr) (7 : Nat) = DetailResult.transportErr →
      check_target (fun _ => DetailResult.transportErr) 0 300 ⟨7, 0, 0⟩ = ([⟨7, 0, 0⟩], [])) :=
  c8_isolation [(Except.ok [mkL 1 5 0], fun _ => Except.ok true)]
    [(Except.ok [mkL 2 5 0], fun _ => Except.ok true)]
    ((Except.error (), fun _ => Except.ok true) : SearchInput) [] rfl
    (fun _ => DetailResult.transportErr) 0 300 [] [⟨8, 0, 0⟩] ⟨7, 0, 0⟩

/-! ### Notification dedup -/

/-- Every listing in the `new_listings` subset was not yet notified. -/
theorem search_new_not_notified (fetched : Except Unit (List Listing))
    (adv : Listing → Except Unit Bool) (notified : List Nat) (notify : Bool) :
    ∀ l ∈ (search_listings fetched adv notified notify).2.1, l.id ∉ notified := by
  intro l hl
  rcases fetched with e | listings
  · simp [search_listings] at hl
  · rcases hA : applyAdvanced adv listings with e | filtered
    · simp [search_listings, hA] at hl
    · simp only [search_listings, hA] at hl
      split_ifs at hl <;>
      · simp only [List.mem_filter, Bool.not_eq_true', containsEqMem,
          decide_eq_false_iff_not] at hl
        exact hl.2

/-- With notification on, every id of the `new_listings` subset ends up in
the notified set. -/
theorem search_new_notified_after (fetched : Except Unit (List Listing))
    (adv : Listing → Except Unit Bool) (notified : List Nat) :
    ∀ l ∈ (search_listings fetched adv notified true).2.1,
      l.id ∈ (search_listings fetched adv notified true).2.2 := by
  intro l hl
  rcases fetched with e | listings
  · simp [search_listings] at hl
  · rcases hA : applyAdvanced adv listings with e | filtered
    · simp [search_listings, hA] at hl
    · simp only [search_listings, hA] at hl ⊢
      by_cases hc : (true && !(filtered.filter (fun l => !notified.contains l.id)).isEmpty)
          = true
      · rw [if_pos hc] at hl ⊢
        exact List.mem_append_right _ (List.mem_map.mpr ⟨l, hl, rfl⟩)
      · rw [if_neg hc] at hl ⊢
        have hempty : filtered.filter (fun l => !notified.contains l.id) = [] := by
          by_contra hne
          exact hc (by rw [List.isEmpty_eq_false.mpr hne]; rfl)
        rw [hempty] at hl
        simp at hl

/-- The notified set only grows across a `search_listings` call. -/
theorem search_notified_monotone (fetched : Except Unit (List Listing))
    (adv : Listing → Except Unit Bool) (notified : List Nat) (notify : Bool) :
    ∀ i ∈ notified, i ∈ (search_listings fetched adv notified notify).2.2 := by
  intro i hi
  rcases fetched with e | listings
  · exact hi
  · rcases hA : applyAdvanced adv listings with e | filtered
    · simp only [search_listings, hA]
      exact hi
    · simp only [search_listings, hA]
      by_cases hc : (notify && !(filtered.filter (fun l => !notified.contains l.id)).isEmpty)
          = true
      · rw [if_pos hc]
        exact List.mem_append_left _ hi
      · rw [if_neg hc]
        exact hi

/-- An id in the notified set stays there across any sequence of searches,
and never appears in any later `new_listings` subset. -/
theorem runSearches_persistent (inputs : List SearchInput) :
    ∀ (notified : List Nat) (i : Nat), i ∈ notified →
      i ∈ (runSearches inputs notified).1 ∧
        ∀ sub ∈ (runSearches inputs notified).2, ∀ l ∈ sub, l.id ≠ i := by
  induction inputs with
  | nil =>
    intro notified i hi
    exact ⟨hi, by simp [runSearches]⟩
  | cons u rest ih =>
    intro notified i hi
    have hmono := search_notified_monotone u.1 u.2 notified true i hi
    have hrec := ih (search_listings u.1 u.2 notified true).2.2 i hmono
    constructor
    · simpa [runSearches] using hrec.1
    · intro sub hsub l hl
      simp only [runSearches, List.mem_cons] at hsub
      rcases hsub with h | h
      · subst h
        intro heq
        apply search_new_not_notified u.1 u.2 notified true l hl
        rw [heq]
        exact hi
      · exact hrec.2 sub h l hl

/-- Claim C6: every id in a search's newly-found subset is added to the
notified set, a newly-found id was not previously notified, and an id once
in the notified set stays there and is excluded from the new subset of every
subsequent search until `clear_notified_listings` resets the set. -/
theorem c6_dedup (fetched : Except Unit (List Listing)) (adv : Listing → Except Unit Bool)
    (notified : List Nat) (inputs : List SearchInput) (i : Nat) (hi : i ∈ notified) :
    (∀ l ∈ (search_listings fetched adv notified true).2.1,
        l.id ∉ notified ∧ l.id ∈ (search_listings fetched adv notified true).2.2) ∧
    (i ∈ (runSearches inputs notified).1 ∧
      ∀ sub ∈ (runSearches inputs notified).2, ∀ l ∈ sub, l.id ≠ i) ∧
    clear_notified_listings notified = [] :=
  ⟨fun l hl => ⟨search_new_not_notified fetched adv notified true l hl,
      search_new_notified_after fetched adv notified l hl⟩,
    runSearches_persistent inputs notified i hi, rfl⟩

/-- Concrete instance of `c6_dedup`: id 3, notified once, stays notified and
is excluded from the new subset of a later cycle that sees it again. -/
theorem c6_dedup_witness :
    3 ∈ (runSearches [(Except.ok [mkL 3 9 0, mkL 4 9 0], fun _ => Except.ok true)] [3]).1 ∧
    ∀ sub ∈ (runSearches [(Except.ok [mkL 3 9 0, mkL 4 9 0],
        fun _ => Except.ok true)] [3]).2, ∀ l ∈ sub, l.id ≠ 3 :=
  (c6_dedup (Except.ok [mkL 3 1 0]) (fun _ => Except.ok true) [3]
    [(Except.ok [mkL 3 9 0, mkL 4 9 0], fun _ => Except.ok true)] 3 (by decide)).2.1

/-! ### Pagination -/

/-- Closed form of the fetch loop from any page: the pages fetched are the
contiguous run from `page`, the data is their concatenation in page order,
and every request uses the clamped maximum page size. -/
theorem getAllAux_spec (fetchData : Nat → List Listing) (maxPages : Option Nat) :
    ∀ (rem page : Nat),
      getAllAux fetchData maxPages page rem =
        (((List.range' page (auxCount maxPages page rem)).map fetchData).flatten,
         (List.range' page (auxCount maxPages page rem)).map (fun q => (q, clampPerPage 100))) := by
  intro rem
  induction rem with
  | zero =>
    intro page
    have hc : auxCount maxPages page 0 = 1 := by
      unfold auxCount
      rcases maxPages with _ | m
      · rfl
      · by_cases h0 : m = 0
        · simp [h0]
        · by_cases hp : m ≤ page
          · simp [h0, hp]
          · simp [h0, hp, Nat.min_def]
    rw [hc]
    simp [getAllAux, List.range']
  | succ n ih =>
    intro page
    by_cases hcap : capReached maxPages page = true
    · have hc : auxCount maxPages page (n + 1) = 1 := by
        unfold capReached at hcap
        unfold auxCount
        rcases maxPages with _ | m
        · simp at hcap
        · simp only [Bool.and_eq_true, bne_iff_ne, ne_eq, decide_eq_true_eq] at hcap
          simp [hcap.1, hcap.2]
      rw [getAllAux, if_pos hcap, hc]
      simp [List.range']
    · have hrec := ih (page + 1)
      have hc : auxCount maxPages page (n + 1) = auxCount maxPages (page + 1) n + 1 := by
        unfold capReached at hcap
        unfold auxCount
        rcases maxPages with _ | m
        · simp
        · simp only [Bool.and_eq_true, bne_iff_ne, ne_eq, decide_eq_true_eq, not_and] at hcap
          by_cases h0 : m = 0
          · simp [h0]
          · have hp : ¬m ≤ page := fun h => hcap h0 h
            by_cases hp1 : m ≤ page + 1
            · simp [h0, hp, hp1, Nat.min_def]
              split_ifs <;> omega
            · simp [h0, hp, hp1, Nat.min_def]
              split_ifs <;> omega
      rw [getAllAux, if_neg hcap, hc, List.range'_succ, hrec]
      simp

/-- `get_all_listings` in closed form: `fetchCount` pages starting at page 1,
data concatenated in page order, every request at the clamped maximum page
size. -/
theorem get_all_listings_spec (fetchData : Nat → List Listing) (totalPages : Nat)
    (maxPages : Option Nat) :
    get_all_listings fetchData totalPages maxPages =
      (((List.range' 1 (fetchCount totalPages maxPages)).map fetchData).flatten,
       (List.range' 1 (fetchCount totalPages maxPages)).map (fun q => (q, clampPerPage 100))) := by
  unfold get_all_listings
  rw [getAllAux_spec]
  have hc : auxCount maxPages 1 (totalPages - 1) = fetchCount totalPages maxPages := by
    unfold auxCount fetchCount
    rcases maxPages with _ | m
    · simp [Nat.max_def]
      split_ifs <;> omega
    · by_cases h0 : m = 0
      · simp [h0, Nat.max_def]
        split_ifs <;> omega
      · by_cases hp : m ≤ 1
        · simp [h0, hp, Nat.max_def, Nat.min_def]
          split_ifs <;> omega
        · simp [h0, hp, Nat.max_def, Nat.min_def]
          split_ifs <;> omega
  rw [hc]

/-- Claim C7 (corrected): with no cap, a source reporting `total_pages = 0`
is still fetched once — the first page is requested before the reported
total is known — so the fetch count is not `total_pages`. -/
theorem c7_counterexample :
    (get_all_listings (fun _ => ([] : List Listing)) 0 none).2.length = 1 ∧
    (get_all_listings (fun _ => ([] : List Listing)) 0 none).2.length ≠ 0 := by
  constructor
  · rfl
  · decide

/-- Claim C7 amended: `get_all_listings` requests pages at `per_page = 100`
(the client clamp maps any request to at most 100) starting from page 1, and
performs exactly `max 1 total_pages` fetches when no cap is given or the cap
is 0 (Python truthiness ignores a zero cap), and exactly
`max 1 (min maxPages total_pages)` fetches for a positive cap; the returned
sequence is the concatenation of the fetched pages' data in page order. -/
theorem c7_amended (fetchData : Nat → List Listing) (totalPages : Nat)
    (maxPages : Option Nat) :
    (get_all_listings fetchData totalPages maxPages).2 =
      (List.range' 1 (fetchCount totalPages maxPages)).map (fun p => (p, 100)) ∧
    (get_all_listings fetchData totalPages maxPages).1 =
      ((List.range' 1 (fetchCount totalPages maxPages)).map fetchData).flatten ∧
    (∀ requested : Nat, clampPerPage requested ≤ 100) := by
  refine ⟨?_, ?_, fun r => Nat.min_le_right r 100⟩
  · rw [get_all_listings_spec]
    rfl
  · rw [get_all_listings_spec]

/-! ### Advanced filters -/

/-- `any` of a pointwise-false predicate is false. -/
theorem any_const_false {α : Type} (l : List α) : (l.any fun _ => false) = false := by
  induction l <;> simp_all

/-- The slot-level excluded-job test with the empty-job-string guard folded
away: an empty job string decodes to no ids, so the guard is redundant. -/
theorem slotExcluded_eq (table : String → Option Nat) (ex : List Nat) (s : SlotInfo) :
    slotExcluded table ex s =
      (s.filled && ex.any (fun ej =>
        (get_job_ids_from_codes table (get_job_codes_from_string s.job)).contains ej)) := by
  unfold slotExcluded
  by_cases hj : s.job = ""
  · simp only [hj]
    simp [get_job_codes_from_string, get_job_ids_from_codes, any_const_false]
  · have hj' : (s.job != "") = true := by simp [hj]
    simp [hj']

/-- The excluded-job check with its truthiness guards folded away: an unset
or empty exclusion list and missing or empty slots reject nothing anyway. -/
theorem excludeJobsFail_eq (table : String → Option Nat) (c : FilterCondition) (d : Listing) :
    excludeJobsFail table c d =
      (d.slots.getD []).any (fun s =>
        s.filled && (c.exclude_jobs.getD []).any (fun ej =>
          (get_job_ids_from_codes table (get_job_codes_from_string s.job)).contains ej)) := by
  unfold excludeJobsFail
  rw [funext (slotExcluded_eq table (c.exclude_jobs.getD []))]
  rcases hex : c.exclude_jobs with _ | exl
  · simp [optListTruthy, any_const_false]
  · rcases exl with _ | ⟨e, es⟩
    · simp [optListTruthy, any_const_false]
    · rcases hsl : d.slots with _ | sl
      · simp [hsl, optListTruthy, optSlotsTruthy]
      · rcases sl with _ | ⟨s0, ss⟩
        · simp [hsl, optListTruthy, optSlotsTruthy]
        · simp [hsl, optListTruthy, optSlotsTruthy]

/-- The min-slots rejection is the negated spec predicate. -/
theorem minSlotsFail_eq (c : FilterCondition) (d : Listing) :
    minSlotsFail c d = !specMinOk c d := by
  rcases hm : c.min_slots_available with _ | m
  · simp [minSlotsFail, specMinOk, hm]
  · simp only [minSlotsFail, specMinOk, hm]
    rw [← decide_not]
    exact decide_eq_decide.mpr (by omega)

/-- The max-slots rejection is the negated spec predicate. -/
theorem maxSlotsFail_eq (c : FilterCondition) (d : Listing) :
    maxSlotsFail c d = !specMaxOk c d := by
  rcases hm : c.max_slots_filled with _ | m
  · simp [maxSlotsFail, specMaxOk, hm]
  · simp only [maxSlotsFail, specMaxOk, hm]
    rw [← decide_not]
    exact decide_eq_decide.mpr (by omega)

/-- The beginners-welcome rejection is the negated spec predicate. -/
theorem beginnersFail_eq (c : FilterCondition) (d : Listing) :
    beginnersFail c d = !specBegOk c d := by
  rcases hb : c.beginners_welcome with _ | b <;> simp [beginnersFail, specBegOk, hb, bne]

/-- The keyword rejection is the negated amended keyword predicate. -/
theorem keywordFail_eq (c : FilterCondition) (d : Listing) :
    keywordFail c d = !specKwAmended c d := by
  rcases hk : c.content_keywords with _ | s
  · simp [keywordFail, specKwAmended, hk]
  · simp only [keywordFail, specKwAmended, hk]
    by_cases h0 : (s == "") = true
    · have hs : s = "" := by simpa using h0
      subst hs
      rfl
    · rw [if_neg h0]
      by_cases hE : (splitKeywords s).isEmpty = true
      · rw [if_pos hE]
        simp [hE]
      · rw [if_neg hE]
        simp [Bool.eq_false_iff.mpr hE]

/-- Truthiness of the optional id list as a decide. -/
theorem optListTruthy_eq (o : Option (List Nat)) :
    optListTruthy o = decide (o.getD [] ≠ []) := by
  rcases o with _ | l
  · simp [optListTruthy]
  · rcases l with _ | ⟨x, xs⟩ <;> simp [optListTruthy]

/-- Truthiness of the optional numeric field as a decide. -/
theorem optNatTruthy_eq (o : Option Nat) : optNatTruthy o = decide (o.getD 0 ≠ 0) := by
  rcases o with _ | n
  · simp [optNatTruthy]
  · simp only [optNatTruthy, Option.getD_some]
    rw [Bool.eq_iff_iff]
    simp

/-- Truthiness of the optional string field as a decide. -/
theorem optStrTruthy_eq (o : Option String) : optStrTruthy o = decide (o.getD "" ≠ "") := by
  rcases o with _ | s
  · simp [optStrTruthy]
  · simp only [optStrTruthy, Option.getD_some]
    rw [Bool.eq_iff_iff]
    simp

/-- The Python truthiness guard of `check_advanced_filters` equals the
amended claim's "some detail-level field is truthily set". -/
theorem hasAdvancedFilters_eq (c : FilterCondition) :
    hasAdvancedFilters c = advancedFieldSet c := by
  unfold hasAdvancedFilters advancedFieldSet
  rw [optListTruthy_eq, optNatTruthy_eq, optNatTruthy_eq, optStrTruthy_eq]
  rcases hb : c.beginners_welcome with _ | b <;> simp [hb]

/-- Claim C4 (corrected): a zero-valued numeric detail field counts as
"set" in the claim's reading (the field is assigned) but is falsy for the
code's fast-path guard.  With only `min_slots_available = 0` assigned and a
listing whose detail no longer resolves, the code passes the listing without
fetching, while the claim's pipeline fetches and fails closed. -/
theorem c4_counterexample :
    check_advanced_filters (fun _ => DetailResult.notFound) (fun _ => none) (mkL 7 5 0)
        { min_slots_available := some 0 } = Except.ok (true, false) ∧
    detailStageSpec (fun _ => DetailResult.notFound) (fun _ => none) (mkL 7 5 0)
        { min_slots_available := some 0 } = Except.ok (false, true) ∧
    (Except.ok (true, false) : Except Unit (Bool × Bool)) ≠ Except.ok (false, true) := by
  refine ⟨rfl, rfl, ?_⟩
  intro h
  cases h

/-- Claim C4 amended: `check_advanced_filters` returns true without fetching
exactly when no detail-level field is truthily set (zero numerics, empty
lists and empty strings count as unset); otherwise it fetches the detail
(false if the listing no longer resolves, propagating other failures) and
returns the conjunction of the five predicates — excluded-job, minimum
available slots, maximum filled slots, beginner-welcome equality, and the
keyword check, which passes vacuously when the keyword string splits into no
keywords. -/
theorem c4_amended (detail : Nat → DetailResult) (table : String → Option Nat)
    (listing : Listing) (c : FilterCondition) :
    check_advanced_filters detail table listing c = detailStageAmended detail table listing c := by
  unfold check_advanced_filters detailStageAmended
  rw [hasAdvancedFilters_eq]
  by_cases hg : advancedFieldSet c = true
  · rw [hg]
    simp only [Bool.not_true, Bool.false_eq_true, if_false, if_true]
    cases hd : detail listing.id with
    | notFound => rfl
    | transportErr => rfl
    | found d =>
      have e1 : specExcludeOk table c d = !excludeJobsFail table c d := by
        rw [excludeJobsFail_eq]
        rfl
      have e2 : specMinOk c d = !minSlotsFail c d := by
        rw [minSlotsFail_eq, Bool.not_not]
      have e3 : specMaxOk c d = !maxSlotsFail c d := by
        rw [maxSlotsFail_eq, Bool.not_not]
      have e4 : specBegOk c d = !beginnersFail c d := by
        rw [beginnersFail_eq, Bool.not_not]
      have e5 : specKwAmended c d = !keywordFail c d := by
        rw [keywordFail_eq, Bool.not_not]
      simp only [e1, e2, e3, e4, e5]
      cases hEx : excludeJobsFail table c d <;> cases hMin : minSlotsFail c d <;>
        cases hMax : maxSlotsFail c d <;> cases hBeg : beginnersFail c d <;>
        cases hKw : keywordFail c d <;> simp
  · have hg' : advancedFieldSet c = false := Bool.eq_false_iff.mpr hg
    rw [hg']
    rfl

/-- Claim C10: when the only assigned detail-level fields are
`min_slots_available = 0` and/or `max_slots_filled = 0`, the advanced filter
passes every listing without fetching its detail. -/
theorem c10_zero_unset (detail : Nat → DetailResult) (table : String → Option Nat)
    (listing : Listing) (c : FilterCondition)
    (h1 : c.exclude_jobs = none) (h2 : c.beginners_welcome = none)
    (h3 : c.content_keywords = none)
    (h4 : c.min_slots_available = none ∨ c.min_slots_available = some 0)
    (h5 : c.max_slots_filled = none ∨ c.max_slots_filled = some 0) :
    check_advanced_filters detail table listing c = Except.ok (true, false) := by
  unfold check_advanced_filters
  have hg : hasAdvancedFilters c = false := by
    unfold hasAdvancedFilters
    rcases h4 with h4 | h4 <;> rcases h5 with h5 | h5 <;>
      simp [h1, h2, h3, h4, h5, optListTruthy, optNatTruthy, optStrTruthy]
  rw [hg]
  rfl

/-- Concrete instance of `c10_zero_unset`: `max_slots_filled = 0` and
`min_slots_available = 0` pass a listing with three filled slots, with no
detail fetch and regardless of the detail oracle. -/
theorem c10_zero_unset_witness :
    check_advanced_filters (fun _ => DetailResult.notFound) (fun _ => none)
        { mkL 9 5 0 with slots_filled := 3 }
        { min_slots_available := some 0, max_slots_filled := some 0 } =
      Except.ok (true, false) :=
  c10_zero_unset (fun _ => DetailResult.notFound) (fun _ => none)
    { mkL 9 5 0 with slots_filled := 3 }
    { min_slots_available := some 0, max_slots_filled := some 0 }
    rfl rfl rfl (Or.inr rfl) (Or.inr rfl)

/-! ### The merged result sort -/

/-- The character-list order is transitive. -/
theorem charListLtB_trans : ∀ (x y z : List Char),
    charListLtB x y = true → charListLtB y z = true → charListLtB x z = true
  | [], [], _, hxy, _ => by simp [charListLtB] at hxy
  | [], _ :: _, [], _, hyz => by simp [charListLtB] at hyz
  | [], _ :: _, _ :: _, _, _ => rfl
  | _ :: _, [], _, hxy, _ => by simp [charListLtB] at hxy
  | _ :: _, _ :: _, [], _, hyz => by simp [charListLtB] at hyz
  | a :: as, b :: bs, c :: cs, hxy, hyz => by
    simp only [charListLtB, charLtB, Bool.or_eq_true, Bool.and_eq_true, decide_eq_true_eq,
      beq_iff_eq] at *
    rcases hxy with h1 | ⟨h1, h2⟩
    · rcases hyz with g1 | ⟨g1, g2⟩
      · exact Or.inl (Nat.lt_trans h1 g1)
      · refine Or.inl ?_
        rw [← g1]
        exact h1
    · rcases hyz with g1 | ⟨g1, g2⟩
      · refine Or.inl ?_
        rw [h1]
        exact g1
      · exact Or.inr ⟨h1.trans g1, charListLtB_trans as bs cs h2 g2⟩

/-- The character-list order is trichotomous. -/
theorem charListLtB_trichot : ∀ (x y : List Char),
    charListLtB x y = true ∨ x = y ∨ charListLtB y x = true
  | [], [] => Or.inr (Or.inl rfl)
  | [], _ :: _ => Or.inl rfl
  | _ :: _, [] => Or.inr (Or.inr rfl)
  | a :: as, b :: bs => by
    rcases Nat.lt_trichotomy a.toNat b.toNat with h | h | h
    · left
      simp [charListLtB, charLtB, h]
    · have hab : a = b := Char.ext (UInt32.toNat.inj h)
      subst hab
      rcases charListLtB_trichot as bs with h2 | h2 | h2
      · left
        simp [charListLtB, h2]
      · right; left
        rw [h2]
      · right; right
        simp [charListLtB, h2]
    · right; right
      simp [charListLtB, charLtB, h]

/-- The string order is transitive. -/
theorem strLtB_trans (x y z : String) (hxy : strLtB x y = true) (hyz : strLtB y z = true) :
    strLtB x z = true :=
  charListLtB_trans x.data y.data z.data hxy hyz

/-- The string order is trichotomous. -/
theorem strLtB_trichot (x y : String) : strLtB x y = true ∨ x = y ∨ strLtB y x = true := by
  rcases charListLtB_trichot x.data y.data with h | h | h
  · exact Or.inl h
  · refine Or.inr (Or.inl ?_)
    cases x
    cases y
    simp_all
  · exact Or.inr (Or.inr h)

/-- The tuple comparator is reflexive. -/
theorem keyLeB_refl (x : Int × String × Int) : keyLeB x x = true := by
  simp [keyLeB]

/-- The tuple comparator is total. -/
theorem keyLeB_total (x y : Int × String × Int) : keyLeB x y = true ∨ keyLeB y x = true := by
  unfold keyLeB
  rcases lt_trichotomy x.1 y.1 with h1 | h1 | h1
  · left; simp [h1]
  · rcases strLtB_trichot x.2.1 y.2.1 with h2 | h2 | h2
    · left; simp [h1, h2]
    · rcases Int.le_total x.2.2 y.2.2 with h3 | h3
      · left; simp [h1, h2, h3]
      · right; simp [h1.symm, h2.symm, h3]
    · right; simp [h1.symm, h2]
  · right; simp [h1]

/-- The tuple comparator is transitive. -/
theorem keyLeB_trans (x y z : Int × String × Int)
    (hxy : keyLeB x y = true) (hyz : keyLeB y z = true) : keyLeB x z = true := by
  unfold keyLeB at *
  simp only [Bool.or_eq_true, Bool.and_eq_true, decide_eq_true_eq] at *
  rcases hxy with h1 | ⟨h1, h2⟩
  · rcases hyz with g1 | ⟨g1, g2⟩
    · exact Or.inl (lt_trans h1 g1)
    · refine Or.inl ?_
      rw [← g1]
      exact h1
  · rcases hyz with g1 | ⟨g1, g2⟩
    · refine Or.inl ?_
      rw [h1]
      exact g1
    · refine Or.inr ⟨h1.trans g1, ?_⟩
      rcases h2 with h2 | ⟨h2, h3⟩
      · rcases g2 with g2 | ⟨g2, g3⟩
        · exact Or.inl (strLtB_trans _ _ _ h2 g2)
        · refine Or.inl ?_
          rw [← g2]
          exact h2
      · rcases g2 with g2 | ⟨g2, g3⟩
        · refine Or.inl ?_
          rw [h2]
          exact g2
        · exact Or.inr ⟨h2.trans g2, le_trans h3 g3⟩

/-- Claim C5 (corrected): the cycle's sort does *not* place longer remaining
time first among equal minute/duty entries.  Two listings in the same minute
with the same duty type and remaining times 5 and 3 come out shortest-first:
the claim's order (remaining time descending) would keep the 5 before the 3,
but the code's `reverse=True` on the key component `-time_left` yields 3
before 5. -/
theorem c5_counterexample :
    sortListings [mkL 1 5 0, mkL 2 3 0] = [mkL 2 3 0, mkL 1 5 0] ∧
    specLeC5 (mkL 2 3 0) (mkL 1 5 0) = false ∧
    specLeC5 (mkL 1 5 0) (mkL 2 3 0) = true := by
  decide

/-- Claim C5 amended: the merged result list of each cycle is a stable sort
of its input by descending sort key — update time truncated to the minute
with the most recent minute first, ties broken by duty type *descending*,
further ties by remaining time *ascending* (shortest remaining time first) —
and two entries with equal full sort key (same truncated minute, duty type
and remaining time) preserve their original relative order. -/
theorem c5_amended (xs : List Listing) :
    List.Perm (sortListings xs) xs ∧
    List.Pairwise listingDescLe (sortListings xs) ∧
    (∀ a b : Listing, sortKey a = sortKey b → List.Sublist [a, b] xs →
      List.Sublist [a, b] (sortListings xs)) := by
  haveI : IsTotal Listing listingDescLe :=
    ⟨fun a b => keyLeB_total (sortKey b) (sortKey a)⟩
  haveI : IsTrans Listing listingDescLe :=
    ⟨fun a b c hab hbc => keyLeB_trans (sortKey c) (sortKey b) (sortKey a) hbc hab⟩
  refine ⟨List.perm_insertionSort listingDescLe xs,
    List.sorted_insertionSort listingDescLe xs, ?_⟩
  intro a b hk hs
  refine List.pair_sublist_insertionSort ?_ hs
  show keyLeB (sortKey b) (sortKey a) = true
  rw [hk]
  exact keyLeB_refl _

/-- Concrete instance of `c5_amended`: two listings with identical sort keys
keep their original relative order through the sort. -/
theorem c5_amended_witness :
    List.Sublist [mkL 1 5 0, mkL 3 5 0] (sortListings [mkL 1 5 0, mkL 3 5 0]) :=
  (c5_amended [mkL 1 5 0, mkL 3 5 0]).2.2 (mkL 1 5 0) (mkL 3 5 0) (by decide)
    (List.Sublist.refl _)

end XivpfMonitor
